import Mathlib

/-!
Verification of `salt/modules/napalm_acl.py` (the `netacl` execution module).

The module is orchestration glue: it resolves a Capirca platform name from
device grains, delegates configuration-text generation to the external
`capirca.*` operations, and forwards the generated text to `net.load_config`.
We embed the module's own logic shallowly: Python dynamic values become
`PyVal`, the ambient `__salt__` / `__grains__` lookup tables become an
explicit `SaltEnv` record of injected collaborator functions, and every
embedded operation additionally returns the ordered list of collaborator
calls it makes, so that delegation and non-invocation properties are
statable.
-/

/-- A Python dynamic value, as passed through the module's keyword
arguments. Only the shapes this module's callers use are represented:
`None`, booleans, integers, strings and (nested) lists. -/
inductive PyVal where
  | pynone
  | pybool (b : Bool)
  | pyint (n : Int)
  | pystr (s : String)
  | pylist (l : List PyVal)

/-- Python truthiness (`bool(v)`) for the represented value shapes:
`None`, `False`, `0`, the empty string and the empty list are falsy. -/
def pyTruthy : PyVal → Bool
  | .pynone => false
  | .pybool b => b
  | .pyint n => n != 0
  | .pystr s => !s.data.isEmpty
  | .pylist l => !l.isEmpty

/-- The `if not x: x = []` normalization applied by the module to
`filter_options` (line 436), `terms` (line 651) and `filters` (line 843)
before the external compiler is invoked. -/
def pyOrEmptyList (v : PyVal) : PyVal :=
  if pyTruthy v then v else .pylist []

/-- Python's `str.lower()` (per-character lowering). -/
def strLower (s : String) : String := ⟨s.data.map Char.toLower⟩

/-- Python's substring containment `pat in s`. -/
def strContains (s pat : String) : Bool := decide (List.IsInfix pat.data s.data)

/-- The body of `_get_capirca_platform` (lines 100-115) once the three
grains values `vendor`, `os` and `model` have been read: the
first-match if/elif chain over the lowercased values. -/
def get_capirca_platform_of_facts (vendor os_ model : String) : String :=
  let vendor := strLower vendor
  let os_ := strLower os_
  let model := strLower model
  if vendor == "juniper" && strContains model "srx" then "junipersrx"
  else if vendor == "cisco" && os_ == "ios" then "cisco"
  else if vendor == "cisco" && os_ == "iosxr" then "ciscoxr"
  else if vendor == "cisco" && os_ == "asa" then "ciscoasa"
  else if os_ == "linux" then "iptables"
  else if vendor == "palo alto networks" then "paloaltofw"
  else vendor

/-- The device-facts store `__grains__`: a partial map from grain name to
value. A missing key is Python's `KeyError`. -/
abbrev Grains : Type := String → Option String

/-- `_get_capirca_platform` (lines 87-115): reads the `vendor`, `os` and
`model` grains (a missing key raises, modelled as `none`) and applies the
first-match rule chain. -/
def get_capirca_platform (grains : Grains) : Option String := do
  let vendor ← grains "vendor"
  let os_ ← grains "os"
  let model ← grains "model"
  pure (get_capirca_platform_of_facts vendor os_ model)

/-- Term fields: an ordered keyword-argument mapping (`**term_fields`). -/
abbrev Fields : Type := List (String × PyVal)

/-- The exact argument record the module passes to
`__salt__['capirca.get_term_config']` (lines 439-453). -/
structure TermConfigArgs where
  platform : String
  filter_name : String
  term_name : String
  filter_options : PyVal
  pillar_key : String
  pillarenv : Option String
  saltenv : Option String
  merge_pillar : Bool
  revision_id : Option String
  revision_no : Option Nat
  revision_date : Bool
  revision_date_format : String
  source_service : Option String
  destination_service : Option String
  term_fields : Fields

/-- The exact argument record the module passes to
`__salt__['capirca.get_filter_config']` (lines 654-667). -/
structure FilterConfigArgs where
  platform : String
  filter_name : String
  terms : PyVal
  prepend : Bool
  filter_options : PyVal
  pillar_key : String
  pillarenv : Option String
  saltenv : Option String
  merge_pillar : Bool
  only_lower_merge : Bool
  revision_id : Option String
  revision_no : Option Nat
  revision_date : Bool
  revision_date_format : String

/-- The exact argument record the module passes to
`__salt__['capirca.get_policy_config']` (lines 846-857). -/
structure PolicyConfigArgs where
  platform : String
  filters : PyVal
  prepend : Bool
  pillar_key : String
  pillarenv : Option String
  saltenv : Option String
  merge_pillar : Bool
  only_lower_merge : Bool
  revision_id : Option String
  revision_no : Option Nat
  revision_date : Bool
  revision_date_format : String

/-- The argument record passed to `__salt__['capirca.get_filter_pillar']`
(lines 887-890). -/
structure FilterPillarArgs where
  filter_name : String
  pillar_key : String
  pillarenv : Option String
  saltenv : Option String

/-- The argument record passed to `__salt__['capirca.get_term_pillar']`
(lines 920-924). -/
structure TermPillarArgs where
  filter_name : String
  term_name : String
  pillar_key : String
  pillarenv : Option String
  saltenv : Option String

/-- The argument record passed to `__salt__['net.load_config']`
(lines 454-458, 668-672, 858-862). -/
structure LoadConfigArgs where
  text : String
  test : Bool
  commit : Bool
  debug : Bool
  inherit_napalm_device : PyVal

/-- One call made by this module to an external collaborator. -/
inductive ExtCall where
  | capirca_get_term_config (args : TermConfigArgs)
  | capirca_get_filter_config (args : FilterConfigArgs)
  | capirca_get_policy_config (args : PolicyConfigArgs)
  | capirca_get_filter_pillar (args : FilterPillarArgs)
  | capirca_get_term_pillar (args : TermPillarArgs)
  | net_load_config (args : LoadConfigArgs)

/-- Whether a collaborator call is one of the two read-only pillar
accessors (as opposed to the compiler or the device-apply operation). -/
def ExtCall.isPillarRead : ExtCall → Bool
  | .capirca_get_filter_pillar _ => true
  | .capirca_get_term_pillar _ => true
  | _ => false

/-- Whether a collaborator call is a compiler (config-generation) call. -/
def ExtCall.isCompilerCall : ExtCall → Bool
  | .capirca_get_term_config _ => true
  | .capirca_get_filter_config _ => true
  | .capirca_get_policy_config _ => true
  | _ => false

/-- Whether a collaborator call is the device-apply operation
`net.load_config`. -/
def ExtCall.isApplyCall : ExtCall → Bool
  | .net_load_config _ => true
  | _ => false

/-- The ambient lookup tables `__salt__` / `__grains__` and the
decorator-injected `napalm_device`, made explicit as a record of injected
collaborator behaviours. -/
structure SaltEnv where
  capirca_get_term_config : TermConfigArgs → String
  capirca_get_filter_config : FilterConfigArgs → String
  capirca_get_policy_config : PolicyConfigArgs → String
  capirca_get_filter_pillar : FilterPillarArgs → PyVal
  capirca_get_term_pillar : TermPillarArgs → PyVal
  net_load_config : LoadConfigArgs → PyVal
  grains : Grains
  napalm_device : PyVal

/-- `load_term_config` (lines 122-458): normalizes `filter_options`,
resolves the platform (a grains `KeyError` propagates, modelled as
`none`), asks `capirca.get_term_config` for the term configuration text
and hands that text to `net.load_config` together with the `test`,
`commit` and `debug` flags, returning the apply result unchanged. The
second component is the trace of collaborator calls made. -/
def load_term_config (env : SaltEnv) (filter_name term_name : String)
    (filter_options : PyVal) (pillar_key : String)
    (pillarenv saltenv : Option String) (merge_pillar : Bool)
    (revision_id : Option String) (revision_no : Option Nat)
    (revision_date : Bool) (revision_date_format : String)
    (test commit debug : Bool)
    (source_service destination_service : Option String)
    (term_fields : Fields) : Option (PyVal × List ExtCall) := do
  let filter_options := pyOrEmptyList filter_options
  let platform ← get_capirca_platform env.grains
  let cargs : TermConfigArgs :=
    ⟨platform, filter_name, term_name, filter_options, pillar_key,
     pillarenv, saltenv, merge_pillar, revision_id, revision_no,
     revision_date, revision_date_format, source_service,
     destination_service, term_fields⟩
  let term_config := env.capirca_get_term_config cargs
  let largs : LoadConfigArgs :=
    ⟨term_config, test, commit, debug, env.napalm_device⟩
  pure (env.net_load_config largs,
        [ExtCall.capirca_get_term_config cargs, ExtCall.net_load_config largs])

/-- `load_term_config` invoked with every optional parameter left at its
Python default (`filter_options=None`, `pillar_key='acl'`,
`pillarenv=None`, `saltenv=None`, `merge_pillar=True`,
`revision_id=None`, `revision_no=None`, `revision_date=True`,
`revision_date_format='%Y/%m/%d'`, `test=False`, `commit=True`,
`debug=False`, `source_service=None`, `destination_service=None`, no
extra keyword arguments). -/
def load_term_config_defaults (env : SaltEnv) (filter_name term_name : String) :
    Option (PyVal × List ExtCall) :=
  load_term_config env filter_name term_name .pynone "acl" none none true
    none none true "%Y/%m/%d" false true false none none []

/-- `load_filter_config` (lines 461-672): normalizes `filter_options` and
`terms`, resolves the platform, asks `capirca.get_filter_config` for the
filter configuration text and hands it to `net.load_config`. The trailing
`**kwargs` are accepted and ignored (pylint: disable=unused-argument). -/
def load_filter_config (env : SaltEnv) (filter_name : String)
    (filter_options terms : PyVal) (prepend : Bool) (pillar_key : String)
    (pillarenv saltenv : Option String) (merge_pillar only_lower_merge : Bool)
    (revision_id : Option String) (revision_no : Option Nat)
    (revision_date : Bool) (revision_date_format : String)
    (test commit debug : Bool) (kwargs : Fields) :
    Option (PyVal × List ExtCall) := do
  let filter_options := pyOrEmptyList filter_options
  let terms := pyOrEmptyList terms
  let platform ← get_capirca_platform env.grains
  let cargs : FilterConfigArgs :=
    ⟨platform, filter_name, terms, prepend, filter_options, pillar_key,
     pillarenv, saltenv, merge_pillar, only_lower_merge, revision_id,
     revision_no, revision_date, revision_date_format⟩
  let filter_config := env.capirca_get_filter_config cargs
  let largs : LoadConfigArgs :=
    ⟨filter_config, test, commit, debug, env.napalm_device⟩
  pure (env.net_load_config largs,
        [ExtCall.capirca_get_filter_config cargs, ExtCall.net_load_config largs])

/-- `load_filter_config` with every optional parameter at its Python
default. -/
def load_filter_config_defaults (env : SaltEnv) (filter_name : String) :
    Option (PyVal × List ExtCall) :=
  load_filter_config env filter_name .pynone .pynone true "acl" none none
    true false none none true "%Y/%m/%d" false true false []

/-- `load_policy_config` (lines 675-862): normalizes `filters`, resolves
the platform, asks `capirca.get_policy_config` for the policy
configuration text and hands it to `net.load_config`. The trailing
`**kwargs` are accepted and ignored. -/
def load_policy_config (env : SaltEnv) (filters : PyVal) (prepend : Bool)
    (pillar_key : String) (pillarenv saltenv : Option String)
    (merge_pillar only_lower_merge : Bool) (revision_id : Option String)
    (revision_no : Option Nat) (revision_date : Bool)
    (revision_date_format : String) (test commit debug : Bool)
    (kwargs : Fields) : Option (PyVal × List ExtCall) := do
  let filters := pyOrEmptyList filters
  let platform ← get_capirca_platform env.grains
  let cargs : PolicyConfigArgs :=
    ⟨platform, filters, prepend, pillar_key, pillarenv, saltenv,
     merge_pillar, only_lower_merge, revision_id, revision_no,
     revision_date, revision_date_format⟩
  let policy_config := env.capirca_get_policy_config cargs
  let largs : LoadConfigArgs :=
    ⟨policy_config, test, commit, debug, env.napalm_device⟩
  pure (env.net_load_config largs,
        [ExtCall.capirca_get_policy_config cargs, ExtCall.net_load_config largs])

/-- `load_policy_config` with every optional parameter at its Python
default. -/
def load_policy_config_defaults (env : SaltEnv) :
    Option (PyVal × List ExtCall) :=
  load_policy_config env .pynone true "acl" none none true false none none
    true "%Y/%m/%d" false true false []

/-- `get_filter_pillar` (lines 865-890): delegates entirely to
`capirca.get_filter_pillar` and returns its result. -/
def get_filter_pillar (env : SaltEnv) (filter_name : String)
    (pillar_key : String) (pillarenv saltenv : Option String) :
    PyVal × List ExtCall :=
  let pargs : FilterPillarArgs := ⟨filter_name, pillar_key, pillarenv, saltenv⟩
  (env.capirca_get_filter_pillar pargs, [ExtCall.capirca_get_filter_pillar pargs])

/-- `get_filter_pillar` with its Python defaults (`pillar_key='acl'`,
`pillarenv=None`, `saltenv=None`). -/
def get_filter_pillar_defaults (env : SaltEnv) (filter_name : String) :
    PyVal × List ExtCall :=
  get_filter_pillar env filter_name "acl" none none

/-- `get_term_pillar` (lines 893-924): delegates entirely to
`capirca.get_term_pillar` and returns its result. -/
def get_term_pillar (env : SaltEnv) (filter_name term_name : String)
    (pillar_key : String) (pillarenv saltenv : Option String) :
    PyVal × List ExtCall :=
  let pargs : TermPillarArgs :=
    ⟨filter_name, term_name, pillar_key, pillarenv, saltenv⟩
  (env.capirca_get_term_pillar pargs, [ExtCall.capirca_get_term_pillar pargs])

/-- `get_term_pillar` with its Python defaults (`pillar_key='acl'`,
`pillarenv=None`, `saltenv=None`). -/
def get_term_pillar_defaults (env : SaltEnv) (filter_name term_name : String) :
    PyVal × List ExtCall :=
  get_term_pillar env filter_name term_name "acl" none none

/-- The module's `__virtualname__` (line 63). -/
def virtualname : String := "netacl"

/-- `__virtual__` (lines 72-80): the module registers under
`__virtualname__` when both the Capirca and NAPALM imports succeeded, and
otherwise returns `(False, error message)`, refusing to register. The two
flags are the import results `HAS_CAPIRCA` and `HAS_NAPALM` computed once
at module load time (lines 37-54). -/
def napalm_acl_virtual (has_capirca has_napalm : Bool) : Except String String :=
  if has_capirca && has_napalm then .ok virtualname
  else .error "The netacl (napalm_acl) module cannot be loaded: Please install capirca and napalm."

/-- One row of the specification's platform rule table: an optional
vendor condition, an optional model-substring condition, an optional os
condition, and the resulting platform id. `none` means "any". -/
structure PlatformRule where
  vendorIs : Option String
  modelHas : Option String
  osIs : Option String
  platformId : String

/-- Whether a rule row matches the given (already lowercased) facts. -/
def ruleMatches (r : PlatformRule) (vendor os_ model : String) : Bool :=
  (match r.vendorIs with | some v => vendor == v | none => true) &&
  (match r.modelHas with | some m => strContains model m | none => true) &&
  (match r.osIs with | some o => os_ == o | none => true)

/-- The specification's rule table, in its stated order. -/
def specRuleTable : List PlatformRule :=
  [⟨some "juniper", some "srx", none, "junipersrx"⟩,
   ⟨some "cisco", none, some "ios", "cisco"⟩,
   ⟨some "cisco", none, some "iosxr", "ciscoxr"⟩,
   ⟨some "cisco", none, some "asa", "ciscoasa"⟩,
   ⟨none, none, some "linux", "iptables"⟩,
   ⟨some "palo alto networks", none, none, "paloaltofw"⟩]

/-- First matching rule of a table wins. -/
def firstMatch (vendor os_ model : String) : List PlatformRule → Option String
  | [] => none
  | r :: rs =>
    if ruleMatches r vendor os_ model then some r.platformId
    else firstMatch vendor os_ model rs

/-- The platform resolver as the specification words it: lowercase the
facts, take the first matching row of the rule table, and fall back to
the (lowercased) vendor string when no row matches. -/
def platformSpecTable (vendor os_ model : String) : String :=
  match firstMatch (strLower vendor) (strLower os_) (strLower model) specRuleTable with
  | some p => p
  | none => strLower vendor

/-- Modelled from the spec: the pillar-side data for one filter, as the
external `capirca` execution module (part of this repository but not
under `src/`) reads it — platform-specific options and an ordered list
of named terms. -/
structure FilterSpec where
  options : List String
  terms : List (String × Fields)

/-- Modelled from the spec: the ACL substructure of the pillar store —
an ordered list of named filters. -/
abbrev Pillar : Type := List (String × FilterSpec)

/-- Modelled from the spec: field merge with caller-supplied (CLI) values
winning on conflicting keys. -/
def mergeFields (cli pillarF : Fields) : Fields :=
  cli ++ pillarF.filter (fun kv => !(cli.any (fun c => c.1 == kv.1)))

/-- Modelled from the spec: the ordered name-keyed merge used for term
lists and filter lists — entries whose name already exists in the pillar
keep the pillar position (their values merged, caller wins), new entries
are prepended when `prepend` is true and appended otherwise. -/
def mergeOrderedBy {α : Type} (mergeVal : α → α → α)
    (pillarL cliL : List (String × α)) (prepend : Bool) : List (String × α) :=
  let newL := cliL.filter (fun c => !(pillarL.any (fun p => p.1 == c.1)))
  let existing := pillarL.map (fun p =>
    match cliL.find? (fun c => c.1 == p.1) with
    | some c => (p.1, mergeVal c.2 p.2)
    | none => p)
  if prepend then newL ++ existing else existing ++ newL

/-- Modelled from the spec: the term-list merge (fields merged with
caller priority). -/
def mergeTerms (pillarTerms cliTerms : List (String × Fields))
    (prepend : Bool) : List (String × Fields) :=
  mergeOrderedBy mergeFields pillarTerms cliTerms prepend

/-- Rendering of a Python value into configuration text. -/
def pyRepr : PyVal → String
  | .pynone => "None"
  | .pybool true => "True"
  | .pybool false => "False"
  | .pyint n => toString n
  | .pystr s => s
  | .pylist l => "[" ++ String.intercalate ", " (l.attach.map (fun x => pyRepr x.1)) ++ "]"
decreasing_by
  have h := List.sizeOf_lt_of_mem x.2
  simp_wf
  omega

/-- Rendering of one term (name plus its ordered fields) as a block of
configuration text. -/
def renderTerm (name : String) (fields : Fields) : String :=
  "term " ++ name ++ ": " ++
    String.intercalate "; " (fields.map (fun kv => kv.1 ++ " = " ++ pyRepr kv.2))

/-- The terms recorded in the pillar for the named filter (empty when the
filter is absent). -/
def pillarFilterTerms (pillar : Pillar) (filter_name : String) :
    List (String × Fields) :=
  match pillar.find? (fun f => f.1 == filter_name) with
  | some f => f.2.terms
  | none => []

/-- Modelled from the spec: the external compiler operation
`capirca.get_filter_config` (implemented in this repository outside
`src/`). When `merge_pillar` is true it merges the caller-supplied terms
with the pillar terms of the named filter (ordering per `prepend`) and
consults the pillar once; when false it uses the caller terms exclusively
and never consults the pillar. The configuration text is modelled as the
ordered list of rendered term blocks; the second component counts pillar
reads. -/
def capirca_get_filter_config_model (pillar : Pillar) (filter_name : String)
    (cliTerms : List (String × Fields)) (prepend merge_pillar : Bool) :
    List String × Nat :=
  if merge_pillar then
    ((mergeTerms (pillarFilterTerms pillar filter_name) cliTerms prepend).map
      (fun t => renderTerm t.1 t.2), 1)
  else
    (cliTerms.map (fun t => renderTerm t.1 t.2), 0)

/-- The fields recorded in the pillar for one named term of one named
filter (empty when either is absent). -/
def pillarTermFields (pillar : Pillar) (filter_name term_name : String) : Fields :=
  match (pillarFilterTerms pillar filter_name).find? (fun t => t.1 == term_name) with
  | some t => t.2
  | none => []

/-- Modelled from the spec: the external compiler operation
`capirca.get_term_config` (implemented in this repository outside
`src/`). When `merge_pillar` is true the caller-supplied term fields are
merged with the pillar fields of the named term (caller wins) and the
pillar is consulted once; when false the caller fields are used
exclusively and the pillar is never consulted. -/
def capirca_get_term_config_model (pillar : Pillar)
    (filter_name term_name : String) (fields : Fields) (merge_pillar : Bool) :
    List String × Nat :=
  if merge_pillar then
    ([renderTerm term_name
        (mergeFields fields (pillarTermFields pillar filter_name term_name))], 1)
  else
    ([renderTerm term_name fields], 0)

/-- Rendering of one filter (name, options, ordered term blocks) as a
block of configuration text. -/
def renderFilter (name : String) (f : FilterSpec) : String :=
  "filter " ++ name ++ " [" ++ String.intercalate " " f.options ++ "]: " ++
    String.intercalate " | " (f.terms.map (fun t => renderTerm t.1 t.2))

/-- Modelled from the spec: the external compiler operation
`capirca.get_policy_config` (implemented in this repository outside
`src/`). Caller-supplied filters are merged with the pillar filters by
name (ordering per `prepend`, caller wins on an existing name); the
output text is modelled as the ordered list of rendered filter blocks. -/
def capirca_get_policy_config_model (pillar : Pillar)
    (cliFilters : List (String × FilterSpec)) (prepend merge_pillar : Bool) :
    List String × Nat :=
  if merge_pillar then
    ((mergeOrderedBy (fun c _ => c) pillar cliFilters prepend).map
      (fun f => renderFilter f.1 f.2), 1)
  else
    (cliFilters.map (fun f => renderFilter f.1 f.2), 0)

/-- Joining the rendered blocks of the modelled compiler output into one
configuration-text string. -/
def joinConfig (blocks : List String) : String := String.intercalate "\n" blocks

/-- A `SaltEnv` in which the three compiler operations behave per their
spec model over a given pillar store, the two pillar accessors read the
same store, and the apply operation, the grains and the device handle are
injected. `decodeTerms` / `decodeFilters` translate the dynamic
`terms` / `filters` arguments into the model's structured form, and
`encodeFilter` / `encodeFields` translate pillar lookups back into
dynamic values; all four are arbitrary. -/
def envWithPillar (pillar : Pillar)
    (decodeTerms : PyVal → List (String × Fields))
    (decodeFilters : PyVal → List (String × FilterSpec))
    (encodeFilter : Option FilterSpec → PyVal)
    (encodeFields : Option Fields → PyVal)
    (apply : LoadConfigArgs → PyVal) (grains : Grains) (device : PyVal) :
    SaltEnv :=
  { capirca_get_term_config := fun a =>
      joinConfig (capirca_get_term_config_model pillar a.filter_name
        a.term_name a.term_fields a.merge_pillar).1,
    capirca_get_filter_config := fun a =>
      joinConfig (capirca_get_filter_config_model pillar a.filter_name
        (decodeTerms a.terms) a.prepend a.merge_pillar).1,
    capirca_get_policy_config := fun a =>
      joinConfig (capirca_get_policy_config_model pillar
        (decodeFilters a.filters) a.prepend a.merge_pillar).1,
    capirca_get_filter_pillar := fun a =>
      encodeFilter ((pillar.find? (fun f => f.1 == a.filter_name)).map
        (fun f => f.2)),
    capirca_get_term_pillar := fun a =>
      encodeFields (((pillarFilterTerms pillar a.filter_name).find?
        (fun t => t.1 == a.term_name)).map (fun t => t.2)),
    net_load_config := apply,
    grains := grains,
    napalm_device := device }

/-- Example grains of a fully populated device-facts store. -/
def gEx : Grains := fun k =>
  if k == "vendor" then some "Cisco"
  else if k == "os" then some "IOSXR"
  else if k == "model" then some "ASR9904"
  else none

/-- Example grains store missing the `model` key. -/
def gMissing : Grains := fun k =>
  if k == "vendor" then some "Cisco"
  else if k == "os" then some "IOSXR"
  else none

/-- A concrete collaborator environment used to evaluate the theorems on
closed inputs. -/
def envEx : SaltEnv :=
  { capirca_get_term_config := fun a => "TERM " ++ a.term_name,
    capirca_get_filter_config := fun a => "FILTER " ++ a.filter_name,
    capirca_get_policy_config := fun _ => "POLICY",
    capirca_get_filter_pillar := fun a => .pystr a.filter_name,
    capirca_get_term_pillar := fun a => .pystr a.term_name,
    net_load_config := fun a =>
      .pylist [.pystr a.text, .pybool a.test, .pybool a.commit, .pybool a.debug],
    grains := gEx,
    napalm_device := .pynone }

/-- Example term fields used in the ordering example. -/
def fieldsA : Fields := [("action", .pystr "accept")]

/-- Example term fields used in the ordering example. -/
def fieldsB : Fields := [("action", .pystr "deny")]

/-- Example term fields used in the ordering example. -/
def fieldsC : Fields := [("protocol", .pystr "tcp")]

/-- C1: the platform resolver, on fully populated device facts, equals
the specification's first-match case-insensitive rule table — juniper
with "srx" in the model gives "junipersrx"; cisco gives "cisco",
"ciscoxr" or "ciscoasa" for os ios, iosxr, asa; os linux gives
"iptables"; vendor "palo alto networks" gives "paloaltofw"; otherwise
the lowercased vendor string is returned. -/
theorem C1_platform_rule_table (vendor os_ model : String) :
    get_capirca_platform_of_facts vendor os_ model =
      platformSpecTable vendor os_ model := by
  simp only [get_capirca_platform_of_facts, platformSpecTable, specRuleTable,
    firstMatch, ruleMatches, Bool.and_true, Bool.true_and]
  repeat' split
  all_goals simp_all

/-- C2 counterexample: for the device facts vendor "juniper",
os "linux", model "srx300" the resolver returns "junipersrx", not
"iptables" — the juniper/srx rule is evaluated before the linux rule, so
the claim "os linux always gives iptables regardless of vendor and
model" is false on the code. -/
theorem C2_counterexample :
    get_capirca_platform_of_facts "juniper" "linux" "srx300" = "junipersrx" ∧
    get_capirca_platform_of_facts "juniper" "linux" "srx300" ≠ "iptables" := by
  decide

/-- C2 (amended): for every DeviceFacts whose os is "linux"
(case-insensitively), the resolver returns "iptables" unless the vendor
is "juniper" and the model contains "srx" (in which case the earlier
juniper rule wins and it returns "junipersrx"). -/
theorem C2_linux_rule_amended (vendor os_ model : String)
    (hos : strLower os_ = "linux")
    (hj : ¬(strLower vendor = "juniper" ∧ strContains (strLower model) "srx" = true)) :
    get_capirca_platform_of_facts vendor os_ model = "iptables" := by
  have h1 : (strLower vendor == "juniper" && strContains (strLower model) "srx") = false := by
    by_cases hv : strLower vendor = "juniper"
    · have hb : strContains (strLower model) "srx" = false := by
        cases hcb : strContains (strLower model) "srx"
        · rfl
        · exact absurd ⟨hv, hcb⟩ hj
      simp [hv, hb]
    · simp [hv]
  simp only [get_capirca_platform_of_facts, hos, h1]
  simp

/-- C2 amended-claim witness at the concrete facts
(vendor "Arista", os "Linux", model "7050"). -/
theorem C2_linux_rule_amended_witness :
    strLower "Linux" = "linux" ∧
    get_capirca_platform_of_facts "Arista" "Linux" "7050" = "iptables" :=
  ⟨by decide, C2_linux_rule_amended "Arista" "Linux" "7050" (by decide) (by decide)⟩

/-- C3: `_get_capirca_platform` is total on fully populated grains — it
returns a platform string (the pure function of the three facts) with no
failure path — while a missing `vendor`, `os` or `model` key is a fatal
lookup failure propagated to the caller (modelled as `none`). -/
theorem C3_total_on_populated_facts (g : Grains) :
    (∀ v o m, g "vendor" = some v → g "os" = some o → g "model" = some m →
      get_capirca_platform g = some (get_capirca_platform_of_facts v o m)) ∧
    ((g "vendor" = none ∨ g "os" = none ∨ g "model" = none) →
      get_capirca_platform g = none) := by
  constructor
  · intro v o m hv ho hm
    simp [get_capirca_platform, hv, ho, hm]
  · intro h
    rcases h with h | h | h
    · simp [get_capirca_platform, h]
    · cases hv : g "vendor" <;> simp [get_capirca_platform, hv, h]
    · cases hv : g "vendor" <;> cases ho : g "os" <;>
        simp [get_capirca_platform, hv, ho, h]

/-- C3 witness: on the fully populated example grains the resolver
returns a platform, and on the grains missing `model` it fails. -/
theorem C3_total_on_populated_facts_witness :
    get_capirca_platform gEx = some "ciscoxr" ∧
    get_capirca_platform gMissing = none := by
  constructor
  · have h := (C3_total_on_populated_facts gEx).1 "Cisco" "IOSXR" "ASR9904" rfl rfl rfl
    rw [h]
    decide
  · exact (C3_total_on_populated_facts gMissing).2 (Or.inr (Or.inr rfl))

/-- C4: for every call to `load_term_config`, `load_filter_config` or
`load_policy_config` (on a device whose platform resolves), the text
returned by the external compiler is handed to `net.load_config`
unchanged, the caller's `test`, `commit` and `debug` flags are forwarded
exactly as given, and the apply result is returned to the caller
unmodified; with all optional parameters at their Python defaults the
apply operation receives `test=False`, `commit=True`, `debug=False`. -/
theorem C4_generated_text_applied_verbatim (env : SaltEnv) (platform : String)
    (h : get_capirca_platform env.grains = some platform) :
    (∀ filter_name term_name filter_options pillar_key pillarenv saltenv
        merge_pillar revision_id revision_no revision_date
        revision_date_format test commit debug source_service
        destination_service term_fields,
      load_term_config env filter_name term_name filter_options pillar_key
          pillarenv saltenv merge_pillar revision_id revision_no
          revision_date revision_date_format test commit debug
          source_service destination_service term_fields =
        some (env.net_load_config
            ⟨env.capirca_get_term_config
                ⟨platform, filter_name, term_name,
                 pyOrEmptyList filter_options, pillar_key, pillarenv,
                 saltenv, merge_pillar, revision_id, revision_no,
                 revision_date, revision_date_format, source_service,
                 destination_service, term_fields⟩,
             test, commit, debug, env.napalm_device⟩,
          [ExtCall.capirca_get_term_config
              ⟨platform, filter_name, term_name,
               pyOrEmptyList filter_options, pillar_key, pillarenv,
               saltenv, merge_pillar, revision_id, revision_no,
               revision_date, revision_date_format, source_service,
               destination_service, term_fields⟩,
           ExtCall.net_load_config
              ⟨env.capirca_get_term_config
                  ⟨platform, filter_name, term_name,
                   pyOrEmptyList filter_options, pillar_key, pillarenv,
                   saltenv, merge_pillar, revision_id, revision_no,
                   revision_date, revision_date_format, source_service,
                   destination_service, term_fields⟩,
               test, commit, debug, env.napalm_device⟩])) ∧
    (∀ filter_name filter_options terms prepend pillar_key pillarenv
        saltenv merge_pillar only_lower_merge revision_id revision_no
        revision_date revision_date_format test commit debug kwargs,
      load_filter_config env filter_name filter_options terms prepend
          pillar_key pillarenv saltenv merge_pillar only_lower_merge
          revision_id revision_no revision_date revision_date_format
          test commit debug kwargs =
        some (env.net_load_config
            ⟨env.capirca_get_filter_config
                ⟨platform, filter_name, pyOrEmptyList terms, prepend,
                 pyOrEmptyList filter_options, pillar_key, pillarenv,
                 saltenv, merge_pillar, only_lower_merge, revision_id,
                 revision_no, revision_date, revision_date_format⟩,
             test, commit, debug, env.napalm_device⟩,
          [ExtCall.capirca_get_filter_config
              ⟨platform, filter_name, pyOrEmptyList terms, prepend,
               pyOrEmptyList filter_options, pillar_key, pillarenv,
               saltenv, merge_pillar, only_lower_merge, revision_id,
               revision_no, revision_date, revision_date_format⟩,
           ExtCall.net_load_config
              ⟨env.capirca_get_filter_config
                  ⟨platform, filter_name, pyOrEmptyList terms, prepend,
                   pyOrEmptyList filter_options, pillar_key, pillarenv,
                   saltenv, merge_pillar, only_lower_merge, revision_id,
                   revision_no, revision_date, revision_date_format⟩,
               test, commit, debug, env.napalm_device⟩])) ∧
    (∀ filters prepend pillar_key pillarenv saltenv merge_pillar
        only_lower_merge revision_id revision_no revision_date
        revision_date_format test commit debug kwargs,
      load_policy_config env filters prepend pillar_key pillarenv saltenv
          merge_pillar only_lower_merge revision_id revision_no
          revision_date revision_date_format test commit debug kwargs =
        some (env.net_load_config
            ⟨env.capirca_get_policy_config
                ⟨platform, pyOrEmptyList filters, prepend, pillar_key,
                 pillarenv, saltenv, merge_pillar, only_lower_merge,
                 revision_id, revision_no, revision_date,
                 revision_date_format⟩,
             test, commit, debug, env.napalm_device⟩,
          [ExtCall.capirca_get_policy_config
              ⟨platform, pyOrEmptyList filters, prepend, pillar_key,
               pillarenv, saltenv, merge_pillar, only_lower_merge,
               revision_id, revision_no, revision_date,
               revision_date_format⟩,
           ExtCall.net_load_config
              ⟨env.capirca_get_policy_config
                  ⟨platform, pyOrEmptyList filters, prepend, pillar_key,
                   pillarenv, saltenv, merge_pillar, only_lower_merge,
                   revision_id, revision_no, revision_date,
                   revision_date_format⟩,
               test, commit, debug, env.napalm_device⟩])) ∧
    (∀ filter_name term_name,
      load_term_config_defaults env filter_name term_name =
        some (env.net_load_config
            ⟨env.capirca_get_term_config
                ⟨platform, filter_name, term_name, .pylist [], "acl",
                 none, none, true, none, none, true, "%Y/%m/%d", none,
                 none, []⟩,
             false, true, false, env.napalm_device⟩,
          [ExtCall.capirca_get_term_config
              ⟨platform, filter_name, term_name, .pylist [], "acl", none,
               none, true, none, none, true, "%Y/%m/%d", none, none, []⟩,
           ExtCall.net_load_config
              ⟨env.capirca_get_term_config
                  ⟨platform, filter_name, term_name, .pylist [], "acl",
                   none, none, true, none, none, true, "%Y/%m/%d", none,
                   none, []⟩,
               false, true, false, env.napalm_device⟩])) := by
  refine ⟨?_, ?_, ?_, ?_⟩
  · intro filter_name term_name filter_options pillar_key pillarenv saltenv
      merge_pillar revision_id revision_no revision_date
      revision_date_format test commit debug source_service
      destination_service term_fields
    simp [load_term_config, h]
  · intro filter_name filter_options terms prepend pillar_key pillarenv
      saltenv merge_pillar only_lower_merge revision_id revision_no
      revision_date revision_date_format test commit debug kwargs
    simp [load_filter_config, h]
  · intro filters prepend pillar_key pillarenv saltenv merge_pillar
      only_lower_merge revision_id revision_no revision_date
      revision_date_format test commit debug kwargs
    simp [load_policy_config, h]
  · intro filter_name term_name
    simp [load_term_config_defaults, load_term_config, h, pyOrEmptyList,
      pyTruthy]

/-- C4 witness: the delegation equation evaluated in the concrete
environment `envEx` (platform resolves to "ciscoxr"), with all optional
parameters at their defaults. -/
theorem C4_generated_text_applied_verbatim_witness :
    get_capirca_platform envEx.grains = some "ciscoxr" ∧
    load_term_config_defaults envEx "f1" "t1" =
      some (envEx.net_load_config
          ⟨envEx.capirca_get_term_config
              ⟨"ciscoxr", "f1", "t1", .pylist [], "acl", none, none, true,
               none, none, true, "%Y/%m/%d", none, none, []⟩,
           false, true, false, envEx.napalm_device⟩,
        [ExtCall.capirca_get_term_config
            ⟨"ciscoxr", "f1", "t1", .pylist [], "acl", none, none, true,
             none, none, true, "%Y/%m/%d", none, none, []⟩,
         ExtCall.net_load_config
            ⟨envEx.capirca_get_term_config
                ⟨"ciscoxr", "f1", "t1", .pylist [], "acl", none, none,
                 true, none, none, true, "%Y/%m/%d", none, none, []⟩,
             false, true, false, envEx.napalm_device⟩]) :=
  ⟨by decide,
   (C4_generated_text_applied_verbatim envEx "ciscoxr" (by decide)).2.2.2 "f1" "t1"⟩

/-- C5: merging caller entries with pillar entries is controlled by
`prepend` and never re-sorted — pillar terms [A, B] and caller term [C]
merge to [C, A, B] under `prepend=True` and to [A, B, C] under
`prepend=False` — and the term (and, at policy granularity, filter)
ordering of the generated output text is exactly the merged ordering. -/
theorem C5_merge_ordering_controlled_by_prepend :
    (mergeTerms [("A", fieldsA), ("B", fieldsB)] [("C", fieldsC)] true =
      [("C", fieldsC), ("A", fieldsA), ("B", fieldsB)]) ∧
    (mergeTerms [("A", fieldsA), ("B", fieldsB)] [("C", fieldsC)] false =
      [("A", fieldsA), ("B", fieldsB), ("C", fieldsC)]) ∧
    (∀ pillar filter_name cliTerms prepend,
      (capirca_get_filter_config_model pillar filter_name cliTerms
          prepend true).1 =
        (mergeTerms (pillarFilterTerms pillar filter_name) cliTerms
            prepend).map (fun t => renderTerm t.1 t.2)) ∧
    (∀ pillar cliFilters prepend,
      (capirca_get_policy_config_model pillar cliFilters prepend true).1 =
        (mergeOrderedBy (fun c _ => c) pillar cliFilters prepend).map
          (fun f => renderFilter f.1 f.2)) := by
  refine ⟨rfl, rfl, ?_, ?_⟩
  · intro pillar filter_name cliTerms prepend
    simp [capirca_get_filter_config_model]
  · intro pillar cliFilters prepend
    simp [capirca_get_policy_config_model]

/-- C6: `get_filter_pillar` and `get_term_pillar` delegate entirely to
the external pillar accessor with the same arguments (`pillar_key`
defaulting to "acl") and return its result; their collaborator trace is
the single pillar read — they never invoke the compiler or apply
collaborators and perform no device interaction. -/
theorem C6_pillar_accessors_delegate_only :
    (∀ env filter_name pillar_key pillarenv saltenv,
      get_filter_pillar env filter_name pillar_key pillarenv saltenv =
        (env.capirca_get_filter_pillar
            ⟨filter_name, pillar_key, pillarenv, saltenv⟩,
         [ExtCall.capirca_get_filter_pillar
            ⟨filter_name, pillar_key, pillarenv, saltenv⟩])) ∧
    (∀ env filter_name term_name pillar_key pillarenv saltenv,
      get_term_pillar env filter_name term_name pillar_key pillarenv saltenv =
        (env.capirca_get_term_pillar
            ⟨filter_name, term_name, pillar_key, pillarenv, saltenv⟩,
         [ExtCall.capirca_get_term_pillar
            ⟨filter_name, term_name, pillar_key, pillarenv, saltenv⟩])) ∧
    (∀ env filter_name,
      get_filter_pillar_defaults env filter_name =
        get_filter_pillar env filter_name "acl" none none) ∧
    (∀ env filter_name term_name,
      get_term_pillar_defaults env filter_name term_name =
        get_term_pillar env filter_name term_name "acl" none none) ∧
    (∀ env filter_name pillar_key pillarenv saltenv,
      ((get_filter_pillar env filter_name pillar_key pillarenv
          saltenv).2.all
        (fun c => c.isPillarRead && !c.isCompilerCall && !c.isApplyCall)) =
        true) ∧
    (∀ env filter_name term_name pillar_key pillarenv saltenv,
      ((get_term_pillar env filter_name term_name pillar_key pillarenv
          saltenv).2.all
        (fun c => c.isPillarRead && !c.isCompilerCall && !c.isApplyCall)) =
        true) := by
  refine ⟨?_, ?_, ?_, ?_, ?_, ?_⟩ <;> · intros; rfl

/-- C7: with `merge_pillar=False` the pillar is never consulted and the
outcome is determined by the caller-supplied overrides alone — the
modelled compiler performs zero pillar reads and ignores the pillar
store, generators composed with it return identical results under any
two pillar stores, and the generators' own collaborator traces contain
no pillar-accessor call. -/
theorem C7_pillar_not_consulted_when_merge_false :
    (∀ pillar filter_name term_name fields,
      capirca_get_term_config_model pillar filter_name term_name fields
          false =
        ([renderTerm term_name fields], 0)) ∧
    (∀ pillar filter_name cliTerms prepend,
      capirca_get_filter_config_model pillar filter_name cliTerms prepend
          false =
        (cliTerms.map (fun t => renderTerm t.1 t.2), 0)) ∧
    (∀ pillar cliFilters prepend,
      capirca_get_policy_config_model pillar cliFilters prepend false =
        (cliFilters.map (fun f => renderFilter f.1 f.2), 0)) ∧
    (∀ p1 p2 decodeTerms decodeFilters encodeFilter encodeFields apply
        grains device filter_name term_name filter_options pillar_key
        pillarenv saltenv revision_id revision_no revision_date
        revision_date_format test commit debug source_service
        destination_service term_fields,
      load_term_config
          (envWithPillar p1 decodeTerms decodeFilters encodeFilter
            encodeFields apply grains device)
          filter_name term_name filter_options pillar_key pillarenv
          saltenv false revision_id revision_no revision_date
          revision_date_format test commit debug source_service
          destination_service term_fields =
        load_term_config
          (envWithPillar p2 decodeTerms decodeFilters encodeFilter
            encodeFields apply grains device)
          filter_name term_name filter_options pillar_key pillarenv
          saltenv false revision_id revision_no revision_date
          revision_date_format test commit debug source_service
          destination_service term_fields) ∧
    (∀ p1 p2 decodeTerms decodeFilters encodeFilter encodeFields apply
        grains device filter_name filter_options terms prepend pillar_key
        pillarenv saltenv only_lower_merge revision_id revision_no
        revision_date revision_date_format test commit debug kwargs,
      load_filter_config
          (envWithPillar p1 decodeTerms decodeFilters encodeFilter
            encodeFields apply grains device)
          filter_name filter_options terms prepend pillar_key pillarenv
          saltenv false only_lower_merge revision_id revision_no
          revision_date revision_date_format test commit debug kwargs =
        load_filter_config
          (envWithPillar p2 decodeTerms decodeFilters encodeFilter
            encodeFields apply grains device)
          filter_name filter_options terms prepend pillar_key pillarenv
          saltenv false only_lower_merge revision_id revision_no
          revision_date revision_date_format test commit debug kwargs) ∧
    (∀ p1 p2 decodeTerms decodeFilters encodeFilter encodeFields apply
        grains device filters prepend pillar_key pillarenv saltenv
        only_lower_merge revision_id revision_no revision_date
        revision_date_format test commit debug kwargs,
      load_policy_config
          (envWithPillar p1 decodeTerms decodeFilters encodeFilter
            encodeFields apply grains device)
          filters prepend pillar_key pillarenv saltenv false
          only_lower_merge revision_id revision_no revision_date
          revision_date_format test commit debug kwargs =
        load_policy_config
          (envWithPillar p2 decodeTerms decodeFilters encodeFilter
            encodeFields apply grains device)
          filters prepend pillar_key pillarenv saltenv false
          only_lower_merge revision_id revision_no revision_date
          revision_date_format test commit debug kwargs) ∧
    (∀ env filter_name term_name filter_options pillar_key pillarenv
        saltenv revision_id revision_no revision_date
        revision_date_format test commit debug source_service
        destination_service term_fields r tr,
      load_term_config env filter_name term_name filter_options
          pillar_key pillarenv saltenv false revision_id revision_no
          revision_date revision_date_format test commit debug
          source_service destination_service term_fields =
        some (r, tr) →
      tr.all (fun c => !c.isPillarRead) = true) ∧
    (∀ env filter_name filter_options terms prepend pillar_key pillarenv
        saltenv only_lower_merge revision_id revision_no revision_date
        revision_date_format test commit debug kwargs r tr,
      load_filter_config env filter_name filter_options terms prepend
          pillar_key pillarenv saltenv false only_lower_merge revision_id
          revision_no revision_date revision_date_format test commit
          debug kwargs =
        some (r, tr) →
      tr.all (fun c => !c.isPillarRead) = true) := by
  refine ⟨fun _ _ _ _ => rfl, fun _ _ _ _ => rfl, fun _ _ _ => rfl,
    ?_, ?_, ?_, ?_, ?_⟩
  · intros p1 p2 decodeTerms decodeFilters encodeFilter encodeFields
      apply grains device filter_name term_name filter_options pillar_key
      pillarenv saltenv revision_id revision_no revision_date
      revision_date_format test commit debug source_service
      destination_service term_fields
    cases hg : get_capirca_platform grains <;>
      simp [load_term_config, envWithPillar, hg,
        capirca_get_term_config_model]
  · intros p1 p2 decodeTerms decodeFilters encodeFilter encodeFields
      apply grains device filter_name filter_options terms prepend
      pillar_key pillarenv saltenv only_lower_merge revision_id
      revision_no revision_date revision_date_format test commit debug
      kwargs
    cases hg : get_capirca_platform grains <;>
      simp [load_filter_config, envWithPillar, hg,
        capirca_get_filter_config_model]
  · intros p1 p2 decodeTerms decodeFilters encodeFilter encodeFields
      apply grains device filters prepend pillar_key pillarenv saltenv
      only_lower_merge revision_id revision_no revision_date
      revision_date_format test commit debug kwargs
    cases hg : get_capirca_platform grains <;>
      simp [load_policy_config, envWithPillar, hg,
        capirca_get_policy_config_model]
  · intros env filter_name term_name filter_options pillar_key pillarenv
      saltenv revision_id revision_no revision_date revision_date_format
      test commit debug source_service destination_service term_fields r
      tr h
    cases hg : get_capirca_platform env.grains <;>
      simp [load_term_config, hg] at h
    obtain ⟨-, htr⟩ := h
    subst htr
    rfl
  · intros env filter_name filter_options terms prepend pillar_key
      pillarenv saltenv only_lower_merge revision_id revision_no
      revision_date revision_date_format test commit debug kwargs r tr h
    cases hg : get_capirca_platform env.grains <;>
      simp [load_filter_config, hg] at h
    obtain ⟨-, htr⟩ := h
    subst htr
    rfl

/-- C7 witness: a concrete `merge_pillar=False` call in `envEx` — the
trace consists of the compiler call and the apply call only, with no
pillar read. -/
theorem C7_pillar_not_consulted_witness :
    load_term_config envEx "f7" "t7" .pynone "acl" none none false none
        none true "%Y/%m/%d" true false true none none [] =
      some (.pylist [.pystr "TERM t7", .pybool true, .pybool false,
              .pybool true],
            [ExtCall.capirca_get_term_config
               ⟨"ciscoxr", "f7", "t7", .pylist [], "acl", none, none,
                false, none, none, true, "%Y/%m/%d", none, none, []⟩,
             ExtCall.net_load_config
               ⟨"TERM t7", true, false, true, .pynone⟩]) ∧
    ([ExtCall.capirca_get_term_config
        ⟨"ciscoxr", "f7", "t7", .pylist [], "acl", none, none, false,
         none, none, true, "%Y/%m/%d", none, none, []⟩,
      ExtCall.net_load_config
        ⟨"TERM t7", true, false, true, .pynone⟩].all
      (fun c => !c.isPillarRead)) = true :=
  ⟨rfl,
   C7_pillar_not_consulted_when_merge_false.2.2.2.2.2.2.1 envEx "f7" "t7"
     .pynone "acl" none none none none true "%Y/%m/%d" true false true
     none none [] _ _ rfl⟩

/-- C8: the module registers (under `__virtualname__` "netacl") exactly
when both the Capirca and NAPALM libraries are importable; otherwise
`__virtual__` returns the load-time refusal `(False, message)` and the
module as a whole does not register. -/
theorem C8_registers_iff_both_libs (has_capirca has_napalm : Bool) :
    (napalm_acl_virtual has_capirca has_napalm = .ok virtualname ↔
      has_capirca = true ∧ has_napalm = true) ∧
    (has_capirca = false ∨ has_napalm = false →
      napalm_acl_virtual has_capirca has_napalm =
        .error "The netacl (napalm_acl) module cannot be loaded: Please install capirca and napalm.") := by
  cases has_capirca <;> cases has_napalm <;>
    simp [napalm_acl_virtual, virtualname]

/-- C8 witness: with Capirca present but NAPALM missing, `__virtual__`
refuses to register. -/
theorem C8_registers_iff_both_libs_witness :
    napalm_acl_virtual true false =
      .error "The netacl (napalm_acl) module cannot be loaded: Please install capirca and napalm." :=
  (C8_registers_iff_both_libs true false).2 (Or.inr rfl)

/-- C9: `load_filter_config` and `load_policy_config` accept arbitrary
extra keyword arguments but silently ignore them — the result and the
collaborator calls are independent of them — while `load_term_config`
forwards its extra keyword arguments (the term fields) to the compiler
call. -/
theorem C9_extra_kwargs_silently_ignored :
    (∀ env filter_name filter_options terms prepend pillar_key pillarenv
        saltenv merge_pillar only_lower_merge revision_id revision_no
        revision_date revision_date_format test commit debug kw1 kw2,
      load_filter_config env filter_name filter_options terms prepend
          pillar_key pillarenv saltenv merge_pillar only_lower_merge
          revision_id revision_no revision_date revision_date_format test
          commit debug kw1 =
        load_filter_config env filter_name filter_options terms prepend
          pillar_key pillarenv saltenv merge_pillar only_lower_merge
          revision_id revision_no revision_date revision_date_format test
          commit debug kw2) ∧
    (∀ env filters prepend pillar_key pillarenv saltenv merge_pillar
        only_lower_merge revision_id revision_no revision_date
        revision_date_format test commit debug kw1 kw2,
      load_policy_config env filters prepend pillar_key pillarenv saltenv
          merge_pillar only_lower_merge revision_id revision_no
          revision_date revision_date_format test commit debug kw1 =
        load_policy_config env filters prepend pillar_key pillarenv
          saltenv merge_pillar only_lower_merge revision_id revision_no
          revision_date revision_date_format test commit debug kw2) ∧
    (∀ env platform, get_capirca_platform env.grains = some platform →
      ∀ filter_name term_name filter_options pillar_key pillarenv saltenv
          merge_pillar revision_id revision_no revision_date
          revision_date_format test commit debug source_service
          destination_service term_fields,
        ∃ r cargs largs,
          load_term_config env filter_name term_name filter_options
              pillar_key pillarenv saltenv merge_pillar revision_id
              revision_no revision_date revision_date_format test commit
              debug source_service destination_service term_fields =
            some (r, [ExtCall.capirca_get_term_config cargs,
                      ExtCall.net_load_config largs]) ∧
          cargs.term_fields = term_fields) := by
  refine ⟨fun _ _ _ _ _ _ _ _ _ _ _ _ _ _ _ _ _ _ _ => rfl,
    fun _ _ _ _ _ _ _ _ _ _ _ _ _ _ _ _ _ => rfl, ?_⟩
  intro env platform h filter_name term_name filter_options pillar_key
    pillarenv saltenv merge_pillar revision_id revision_no revision_date
    revision_date_format test commit debug source_service
    destination_service term_fields
  refine ⟨env.net_load_config
      ⟨env.capirca_get_term_config
          ⟨platform, filter_name, term_name, pyOrEmptyList filter_options,
           pillar_key, pillarenv, saltenv, merge_pillar, revision_id,
           revision_no, revision_date, revision_date_format,
           source_service, destination_service, term_fields⟩,
       test, commit, debug, env.napalm_device⟩,
    ⟨platform, filter_name, term_name, pyOrEmptyList filter_options,
     pillar_key, pillarenv, saltenv, merge_pillar, revision_id,
     revision_no, revision_date, revision_date_format, source_service,
     destination_service, term_fields⟩,
    ⟨env.capirca_get_term_config
        ⟨platform, filter_name, term_name, pyOrEmptyList filter_options,
         pillar_key, pillarenv, saltenv, merge_pillar, revision_id,
         revision_no, revision_date, revision_date_format,
         source_service, destination_service, term_fields⟩,
     test, commit, debug, env.napalm_device⟩, ?_, rfl⟩
  simp [load_term_config, h]

/-- C9 witness: in `envEx` the compiler call of a concrete
`load_term_config` invocation carries the caller's extra keyword
arguments as its term fields. -/
theorem C9_extra_kwargs_silently_ignored_witness :
    get_capirca_platform envEx.grains = some "ciscoxr" ∧
    ∃ r cargs largs,
      load_term_config envEx "f9" "t9" .pynone "acl" none none true none
          none true "%Y/%m/%d" false true false none none
          [("protocol", .pystr "udp")] =
        some (r, [ExtCall.capirca_get_term_config cargs,
                  ExtCall.net_load_config largs]) ∧
      cargs.term_fields = [("protocol", .pystr "udp")] :=
  ⟨by decide,
   C9_extra_kwargs_silently_ignored.2.2 envEx "ciscoxr" (by decide) "f9"
     "t9" .pynone "acl" none none true none none true "%Y/%m/%d" false
     true false none none [("protocol", .pystr "udp")]⟩

/-- C10: `filter_options`, `terms` and `filters` default to `None`, every
falsy value supplied for them (`None`, `[]`, `""`, `0`, `False`) is
normalized to the empty list before the compiler is invoked, a
list-valued argument is passed through unchanged, and the compiler call
receives the normalized value. -/
theorem C10_falsy_inputs_become_empty_list :
    (∀ v, pyTruthy v = false → pyOrEmptyList v = .pylist []) ∧
    (pyOrEmptyList .pynone = .pylist [] ∧
     pyOrEmptyList (.pylist []) = .pylist [] ∧
     pyOrEmptyList (.pystr "") = .pylist [] ∧
     pyOrEmptyList (.pyint 0) = .pylist [] ∧
     pyOrEmptyList (.pybool false) = .pylist []) ∧
    (∀ l, pyOrEmptyList (.pylist l) = .pylist l) ∧
    (∀ env platform, get_capirca_platform env.grains = some platform →
      (∀ filter_name term_name filter_options pillar_key pillarenv
          saltenv merge_pillar revision_id revision_no revision_date
          revision_date_format test commit debug source_service
          destination_service term_fields,
        ∃ r rest,
          load_term_config env filter_name term_name filter_options
              pillar_key pillarenv saltenv merge_pillar revision_id
              revision_no revision_date revision_date_format test commit
              debug source_service destination_service term_fields =
            some (r, ExtCall.capirca_get_term_config
                ⟨platform, filter_name, term_name,
                 pyOrEmptyList filter_options, pillar_key, pillarenv,
                 saltenv, merge_pillar, revision_id, revision_no,
                 revision_date, revision_date_format, source_service,
                 destination_service, term_fields⟩ :: rest)) ∧
      (∀ filter_name filter_options terms prepend pillar_key pillarenv
          saltenv merge_pillar only_lower_merge revision_id revision_no
          revision_date revision_date_format test commit debug kwargs,
        ∃ r rest,
          load_filter_config env filter_name filter_options terms prepend
              pillar_key pillarenv saltenv merge_pillar only_lower_merge
              revision_id revision_no revision_date revision_date_format
              test commit debug kwargs =
            some (r, ExtCall.capirca_get_filter_config
                ⟨platform, filter_name, pyOrEmptyList terms, prepend,
                 pyOrEmptyList filter_options, pillar_key, pillarenv,
                 saltenv, merge_pillar, only_lower_merge, revision_id,
                 revision_no, revision_date, revision_date_format⟩ ::
              rest)) ∧
      (∀ filters prepend pillar_key pillarenv saltenv merge_pillar
          only_lower_merge revision_id revision_no revision_date
          revision_date_format test commit debug kwargs,
        ∃ r rest,
          load_policy_config env filters prepend pillar_key pillarenv
              saltenv merge_pillar only_lower_merge revision_id
              revision_no revision_date revision_date_format test commit
              debug kwargs =
            some (r, ExtCall.capirca_get_policy_config
                ⟨platform, pyOrEmptyList filters, prepend, pillar_key,
                 pillarenv, saltenv, merge_pillar, only_lower_merge,
                 revision_id, revision_no, revision_date,
                 revision_date_format⟩ :: rest))) ∧
    (∀ env filter_name term_name,
      load_term_config_defaults env filter_name term_name =
        load_term_config env filter_name term_name .pynone "acl" none
          none true none none true "%Y/%m/%d" false true false none none
          []) ∧
    (∀ env filter_name,
      load_filter_config_defaults env filter_name =
        load_filter_config env filter_name .pynone .pynone true "acl"
          none none true false none none true "%Y/%m/%d" false true false
          []) ∧
    (∀ env,
      load_policy_config_defaults env =
        load_policy_config env .pynone true "acl" none none true false
          none none true "%Y/%m/%d" false true false []) := by
  refine ⟨?_, ⟨rfl, rfl, rfl, rfl, rfl⟩, ?_, ?_, fun _ _ _ => rfl,
    fun _ _ => rfl, fun _ => rfl⟩
  · intro v hv
    simp [pyOrEmptyList, hv]
  · intro l
    cases l <;> rfl
  · intro env platform h
    refine ⟨?_, ?_, ?_⟩
    · intro filter_name term_name filter_options pillar_key pillarenv
        saltenv merge_pillar revision_id revision_no revision_date
        revision_date_format test commit debug source_service
        destination_service term_fields
      refine ⟨env.net_load_config
          ⟨env.capirca_get_term_config
              ⟨platform, filter_name, term_name,
               pyOrEmptyList filter_options, pillar_key, pillarenv,
               saltenv, merge_pillar, revision_id, revision_no,
               revision_date, revision_date_format, source_service,
               destination_service, term_fields⟩,
           test, commit, debug, env.napalm_device⟩,
        [ExtCall.net_load_config
            ⟨env.capirca_get_term_config
                ⟨platform, filter_name, term_name,
                 pyOrEmptyList filter_options, pillar_key, pillarenv,
                 saltenv, merge_pillar, revision_id, revision_no,
                 revision_date, revision_date_format, source_service,
                 destination_service, term_fields⟩,
             test, commit, debug, env.napalm_device⟩], ?_⟩
      simp [load_term_config, h]
    · intro filter_name filter_options terms prepend pillar_key pillarenv
        saltenv merge_pillar only_lower_merge revision_id revision_no
        revision_date revision_date_format test commit debug kwargs
      refine ⟨env.net_load_config
          ⟨env.capirca_get_filter_config
              ⟨platform, filter_name, pyOrEmptyList terms, prepend,
               pyOrEmptyList filter_options, pillar_key, pillarenv,
               saltenv, merge_pillar, only_lower_merge, revision_id,
               revision_no, revision_date, revision_date_format⟩,
           test, commit, debug, env.napalm_device⟩,
        [ExtCall.net_load_config
            ⟨env.capirca_get_filter_config
                ⟨platform, filter_name, pyOrEmptyList terms, prepend,
                 pyOrEmptyList filter_options, pillar_key, pillarenv,
                 saltenv, merge_pillar, only_lower_merge, revision_id,
                 revision_no, revision_date, revision_date_format⟩,
             test, commit, debug, env.napalm_device⟩], ?_⟩
      simp [load_filter_config, h]
    · intro filters prepend pillar_key pillarenv saltenv merge_pillar
        only_lower_merge revision_id revision_no revision_date
        revision_date_format test commit debug kwargs
      refine ⟨env.net_load_config
          ⟨env.capirca_get_policy_config
              ⟨platform, pyOrEmptyList filters, prepend, pillar_key,
               pillarenv, saltenv, merge_pillar, only_lower_merge,
               revision_id, revision_no, revision_date,
               revision_date_format⟩,
           test, commit, debug, env.napalm_device⟩,
        [ExtCall.net_load_config
            ⟨env.capirca_get_policy_config
                ⟨platform, pyOrEmptyList filters, prepend, pillar_key,
                 pillarenv, saltenv, merge_pillar, only_lower_merge,
                 revision_id, revision_no, revision_date,
                 revision_date_format⟩,
             test, commit, debug, env.napalm_device⟩], ?_⟩
      simp [load_policy_config, h]

/-- C10 witness: the empty string is falsy and is normalized to the
empty list. -/
theorem C10_falsy_inputs_become_empty_list_witness :
    pyTruthy (.pystr "") = false ∧ pyOrEmptyList (.pystr "") = .pylist [] :=
  ⟨rfl, C10_falsy_inputs_become_empty_list.1 (.pystr "") rfl⟩
